import Mathlib

/-!
Shallow embedding of the Blocktrust identity-lifecycle backend
(src/backend), covering the KYC routes (kyc_routes.py), the blockchain
utilities (blockchain.py), the bio-hash validation (crypto.py), the
authentication guards (auth.py), and the MFA service (mfa_service.py).

External cryptographic primitives (sha256, PBKDF2-HMAC, bcrypt, the
Ethereum account derivation of eth_account) are modelled as concrete
deterministic Lean functions that tag their inputs: the claims under
study depend only on determinism and on distinct inputs giving distinct
outputs, never on the bit-level behaviour of the primitives.

Database state for a single identity is an `Option UserRow` (the result
of fetching the user's row); `NOW()` is an explicit `now : Nat`
parameter; audit logging and ledger interactions are recorded in
explicit effect lists so that "no side effect" and "no ledger call"
claims are statable.
-/

namespace Blocktrust

/-- Model of hashlib.sha256(s.encode()).hexdigest(): a deterministic
injective tagging of the input string. -/
def sha256Hex (s : String) : String :=
  "sha256(" ++ s ++ ")"

/-- Model of hmac-sha256 over a shared secret, used by the webhook
signature check. -/
def hmacSha256Hex (secret payload : String) : String :=
  "hmac-sha256(" ++ secret ++ "|" ++ payload ++ ")"

/-- Model of hashlib.pbkdf2_hmac('sha256', data, salt, iterations, keyLen)
from blockchain.py: deterministic tagging of all four arguments. -/
def pbkdf2_hmac_sha256 (data salt : String) (iterations keyLen : Nat) : String :=
  "pbkdf2-sha256(" ++ data ++ "|" ++ salt ++ "|" ++ toString iterations ++ "|" ++ toString keyLen ++ ")"

/-- Model of eth_account Account.from_key(k).address: a deterministic
function of the private-key material alone. -/
def account_address_from_key (key : String) : String :=
  "0xaddr(" ++ key ++ ")"

/-- Embedding of generate_deterministic_address (blockchain.py:61-88):
fixed salt, seed material f-string, PBKDF2 with 100000 iterations and
32-byte output, then the Ethereum address of the derived key. -/
def generate_deterministic_address (bio_hash : String) : String :=
  let salt := "blocktrust-deterministic"
  let seed_material := bio_hash ++ ":" ++ salt
  let private_key_hash := pbkdf2_hmac_sha256 seed_material salt 100000 32
  account_address_from_key private_key_hash

/-- The key material (private_key_hash) computed inside
generate_deterministic_address, exposed for the determinism claim. -/
def derive_key_material (bio_hash : String) : String :=
  let salt := "blocktrust-deterministic"
  pbkdf2_hmac_sha256 (bio_hash ++ ":" ++ salt) salt 100000 32

/-- Embedding of validate_bio_hash (crypto.py:7-28): empty strings are
falsy in Python, then a minimum length of 32 characters is required;
the hex-format check is commented out in the source. -/
def validate_bio_hash (bio_hash : String) : Bool :=
  if bio_hash == "" then false
  else if bio_hash.length < 32 then false
  else true

/-- Modelled from the spec: verify_webhook_signature lives in
api/utils/sumsub.py, which is not under src/. Per spec section 4.4 it
verifies the raw payload against a signature header using a shared
secret, and an absent or invalid signature is rejected; per the comment
at kyc_routes.py:456 the header carries either the bare hex digest or a
sha256= prefixed form. -/
def verify_webhook_signature (secret payload : String) (signature : Option String) : Bool :=
  match signature with
  | none => false
  | some s =>
    let expected := hmacSha256Hex secret payload
    s == expected || s == "sha256=" ++ expected

/-- Model of a bcrypt hash as an ideal salted hash: checkpw succeeds
exactly when the presented code equals the hashed one. -/
structure BcryptHash where
  salt : String
  body : String
deriving Repr, DecidableEq

/-- Model of bcrypt.hashpw(code, salt). -/
def bcrypt_hashpw (code salt : String) : BcryptHash :=
  ⟨salt, code⟩

/-- Model of bcrypt.checkpw(code, h). -/
def bcrypt_checkpw (code : String) (h : BcryptHash) : Bool :=
  h.body == code

/-- One row of the users table, restricted to the columns read or
written by the embedded code paths. -/
structure UserRow where
  kyc_status : String
  applicant_id : Option String
  bio_hash_fingerprint : Option String
  wallet_address : Option String
  nft_token_id : Option Nat
  nft_tx_hash : Option String
  kyc_started_at : Option Nat
  kyc_completed_at : Option Nat
  nft_minted_at : Option Nat
  updated_at : Option Nat
  name : Option String
  document_number : Option String
  mfa_enabled : Bool
  mfa_secret : Option String
  backup_codes : Option (List BcryptHash)
  password_hash : Option String
  role : String
  email : String
deriving Repr, DecidableEq

/-- The parsed webhook JSON body: applicantId and reviewStatus as read
by kyc_webhook via webhook_data.get. -/
structure WebhookBody where
  applicantId : Option String
  reviewStatus : Option String
deriving Repr, DecidableEq

/-- Outcome of one webhook delivery: resulting row (None if the user
row was absent), HTTP status, response tag, audit events emitted via
log_kyc_event, and the number of database reads performed. -/
structure WebhookOutcome where
  db : Option UserRow
  httpStatus : Nat
  tag : String
  auditEvents : List String
  dbReads : Nat
deriving Repr, DecidableEq

/-- SELECT id, kyc_status FROM users WHERE applicant_id = aid, against
the single modelled row. -/
def lookupByApplicant (db : Option UserRow) (aid : String) : Option UserRow :=
  match db with
  | none => none
  | some u => if u.applicant_id == some aid then some u else none

/-- Embedding of the kyc_webhook handler (kyc_routes.py:449-553).
Signature check first; then JSON parse; then applicantId presence; then
the user lookup; then the completed / rejected branches, each of which
commits an UPDATE of the row keyed by the user id. get_applicant_bio_hash
is the oracle getBio. -/
def kyc_webhook (secret payload : String) (signature : Option String)
    (body : Option WebhookBody) (getBio : String → Option String)
    (db : Option UserRow) (now : Nat) : WebhookOutcome :=
  if !(verify_webhook_signature secret payload signature) then
    ⟨db, 401, "invalid_signature", [], 0⟩
  else
    match body with
    | none => ⟨db, 400, "invalid_payload", [], 0⟩
    | some wb =>
      match wb.applicantId with
      | none => ⟨db, 400, "applicant_required", [], 0⟩
      | some aid =>
        match lookupByApplicant db aid with
        | none => ⟨db, 404, "user_not_found", [], 1⟩
        | some u =>
          if wb.reviewStatus == some "completed" then
            match getBio aid with
            | some bio =>
              let wallet := generate_deterministic_address bio
              let fp := sha256Hex bio
              let u' := { u with
                kyc_status := "COMPLETED",
                bio_hash_fingerprint := some fp,
                wallet_address := some wallet,
                kyc_completed_at := some now,
                updated_at := some now }
              ⟨some u', 200, "processed", ["KYC_APPROVED_WEBHOOK"], 1⟩
            | none => ⟨db, 200, "processed", [], 1⟩
          else if wb.reviewStatus == some "rejected" then
            let u' := { u with
              kyc_status := "REJECTED",
              updated_at := some now }
            ⟨some u', 200, "processed", ["KYC_REJECTED_WEBHOOK"], 1⟩
          else
            ⟨db, 200, "processed", [], 1⟩

/-- One webhook delivery's inputs, for replay sequences. -/
structure WebhookDelivery where
  secret : String
  payload : String
  signature : Option String
  body : Option WebhookBody
  getBio : String → Option String
  now : Nat

/-- Fold a sequence of webhook deliveries over the stored row. -/
def run_webhooks (ds : List WebhookDelivery) (db : Option UserRow) : Option UserRow :=
  ds.foldl (fun acc d => (kyc_webhook d.secret d.payload d.signature d.body d.getBio acc d.now).db) db

/-- Outcome of the init_kyc handler. -/
structure InitOutcome where
  db : Option UserRow
  httpStatus : Nat
  tag : String
  auditEvents : List String
deriving Repr, DecidableEq

/-- Embedding of init_kyc (kyc_routes.py:30-139). credsValid models
validate_credentials; newApplicant models the Sumsub create_applicant
result (None = failure); accessToken models get_access_token. Note the
guard short-circuits only on the literal status 'APPROVED', and the
PENDING update is committed before the access token is requested. -/
def init_kyc (credsValid : Bool) (db : Option UserRow)
    (newApplicant : Option String) (accessToken : Option String) (now : Nat) : InitOutcome :=
  if !credsValid then ⟨db, 500, "invalid_config", []⟩
  else if (match db with
           | some u => u.kyc_status == "APPROVED"
           | none => false) then
    ⟨db, 200, "already_approved", []⟩
  else
    match newApplicant with
    | none => ⟨db, 500, "init_error", []⟩
    | some aid =>
      let db' := db.map (fun u => { u with
        applicant_id := some aid,
        kyc_status := "PENDING",
        kyc_started_at := some now,
        updated_at := some now })
      match accessToken with
      | none => ⟨db', 500, "token_error", []⟩
      | some _ => ⟨db', 200, "success", ["KYC_INITIATED"]⟩

/-- Ledger interactions performed by mint_identity_nft, in order:
the getActiveTokenByBioHash read, the estimate_gas read, and the
send_raw_transaction write (carrying the gas limit it was built with). -/
inductive LedgerOp where
  | lookupActive : LedgerOp
  | estimateGas : LedgerOp
  | submitTx (gasLimit : Nat) : LedgerOp
deriving Repr, DecidableEq

/-- Whether a ledger op is a transaction submission (a ledger write). -/
def LedgerOp.isSubmit : LedgerOp → Bool
  | .submitTx _ => true
  | _ => false

/-- Number of ledger writes in a trace. -/
def countSubmits (ops : List LedgerOp) : Nat :=
  (ops.filter LedgerOp.isSubmit).length

/-- Environment for blockchain.py: configuration, the chain's responses
to each read/write, modelled as passive oracles. A None response models
the corresponding web3 call raising an exception (lookup miss, gas
estimation failure, send failure, confirmation timeout, missing event). -/
structure ChainEnv where
  rpcConfigured : Bool
  connected : Bool
  contractAddressConfigured : Bool
  abiAvailable : Bool
  minterKey : Option String
  activeTokenLookup : Option Nat
  gasEstimate : Option Nat
  sendResult : Option String
  receiptStatus : Option Nat
  receiptBlockNumber : Nat
  receiptGasUsed : Nat
  mintEventTokenId : Option Nat
deriving Repr, DecidableEq

/-- Whether get_web3 and get_contract (blockchain.py:15-58) succeed: exactly when
RPC is configured, connectable, the contract address is configured and
the ABI file is present and valid. -/
def chain_contract_ok (env : ChainEnv) : Bool :=
  env.rpcConfigured && env.connected && env.contractAddressConfigured && env.abiAvailable

/-- The dict returned by mint_identity_nft, with every optional key as
an Option field. -/
structure MintDict where
  success : Bool
  error : Option String
  existing_token_id : Option Nat
  token_id : Option Nat
  tx_hash : Option String
  wallet_address : Option String
  block_number : Option Nat
  gas_used : Option Nat
deriving Repr, DecidableEq

/-- The failure dict produced by the outer except handler of
mint_identity_nft (blockchain.py:284-289). -/
def mintErr (msg : String) : MintDict :=
  ⟨false, some msg, none, none, none, none, none, none⟩

/-- Embedding of mint_identity_nft (blockchain.py:170-289). Every
exception raised inside the body is caught by the outer except and
turned into a success=False dict; the active-token pre-check returns
its own dict with existing_token_id; the gas estimate falls back to a
fixed 500000 ceiling; int(gas_estimate * 1.2) is modelled as
(g * 12) / 10. The trace of ledger interactions is returned alongside. -/
def mint_identity_nft (env : ChainEnv)
    (wallet_address _name _document_number _bio_hash _applicant_id : String) :
    MintDict × List LedgerOp :=
  if !(chain_contract_ok env) then
    (mintErr "conexão ou contrato indisponível", [])
  else
    match env.minterKey with
    | none => (mintErr "MINTER_PRIVATE_KEY não configurada", [])
    | some _ =>
      let ops0 := [LedgerOp.lookupActive]
      match env.activeTokenLookup with
      | some t =>
        if t > 0 then
          (⟨false, some "Já existe um NFT ativo para este bioHash", some t,
            none, none, none, none, none⟩, ops0)
        else mint_after_precheck env wallet_address ops0
      | none => mint_after_precheck env wallet_address ops0
where
  /-- The continuation after the active-token pre-check passed (either
  the lookup returned 0 or it raised and the exception was swallowed). -/
  mint_after_precheck (env : ChainEnv) (wallet_address : String)
      (ops0 : List LedgerOp) : MintDict × List LedgerOp :=
    let gas_limit := match env.gasEstimate with
      | some g => (g * 12) / 10
      | none => 500000
    let ops1 := ops0 ++ [LedgerOp.estimateGas]
    match env.sendResult with
    | none => (mintErr "falha no envio da transação", ops1)
    | some txh =>
      let ops2 := ops1 ++ [LedgerOp.submitTx gas_limit]
      match env.receiptStatus with
      | none => (mintErr "timeout aguardando confirmação", ops2)
      | some st =>
        if st != 1 then (mintErr "Transação falhou na blockchain", ops2)
        else
          match env.mintEventTokenId with
          | none => (mintErr "Evento IdentityMinted não encontrado nos logs", ops2)
          | some tid =>
            (⟨true, none, none, some tid, some txh, some wallet_address,
              some env.receiptBlockNumber, some env.receiptGasUsed⟩, ops2)

/-- Python str.lower(): lowercase every character. Defined over the
character list so that it is kernel-reducible. -/
def pyLower (s : String) : String :=
  String.mk (s.data.map Char.toLower)

/-- Python `x or default` over an optional string column: None and the
empty string are both falsy. -/
def pyOr (o : Option String) (d : String) : String :=
  match o with
  | none => d
  | some s => if s == "" then d else s

/-- The JSON body of the mint-nft request. -/
structure MintBody where
  bio_hash : Option String
  wallet_address : Option String
deriving Repr, DecidableEq

/-- Outcome of the mint-nft endpoint: resulting row, HTTP status,
response tag, response token/tx fields, audit events, ledger trace. -/
structure MintEndpointOutcome where
  db : Option UserRow
  httpStatus : Nat
  tag : String
  token_id : Option Nat
  tx_hash : Option String
  auditEvents : List String
  ledgerOps : List LedgerOp
deriving Repr, DecidableEq

/-- The final stage of the mint-nft endpoint (kyc_routes.py:303-356):
run mint_identity_nft; on failure answer 500 leaving the row unchanged;
on success cache the token id and tx hash on the row and answer 200. -/
def mint_and_update (env : ChainEnv) (wallet bio : String) (u : UserRow)
    (now : Nat) : MintEndpointOutcome :=
  let r := mint_identity_nft env wallet
    (pyOr u.name "Usuário Blocktrust")
    (pyOr u.document_number "N/A")
    bio (pyOr u.applicant_id "")
  if !r.1.success then
    ⟨some u, 500, "mint_error", none, none, [], r.2⟩
  else
    match r.1.token_id, r.1.tx_hash with
    | some tid, some txh =>
      ⟨some { u with
          nft_token_id := some tid,
          nft_tx_hash := some txh,
          nft_minted_at := some now,
          updated_at := some now },
       200, "success", some tid, some txh, ["NFT_MINTED"], r.2⟩
    | _, _ => ⟨some u, 500, "internal_error", none, none, [], r.2⟩

/-- Embedding of mint_identity_nft_endpoint (kyc_routes.py:241-367):
required-field checks, validate_bio_hash, the case-insensitive address
cross-check against the re-derived address, the COMPLETED status gate,
the already-minted cache hit, then the on-chain mint and the row update
caching token id and tx hash (mint_and_update). A missing JSON body
raises in Python and lands in the generic 500 handler. -/
def mint_identity_nft_endpoint (env : ChainEnv) (body : Option MintBody)
    (db : Option UserRow) (now : Nat) : MintEndpointOutcome :=
  match body with
  | none => ⟨db, 500, "internal_error", none, none, [], []⟩
  | some b =>
    match b.bio_hash with
    | none => ⟨db, 400, "missing_field", none, none, [], []⟩
    | some bio =>
      match b.wallet_address with
      | none => ⟨db, 400, "missing_field", none, none, [], []⟩
      | some wallet =>
        if !(validate_bio_hash bio) then
          ⟨db, 400, "invalid_biohash", none, none, [], []⟩
        else
          if pyLower wallet != pyLower (generate_deterministic_address bio) then
            ⟨db, 400, "address_mismatch", none, none, [], []⟩
          else
            match db with
            | none => ⟨db, 400, "kyc_not_approved", none, none, [], []⟩
            | some u =>
              if u.kyc_status != "COMPLETED" then
                ⟨db, 400, "kyc_not_approved", none, none, [], []⟩
              else
                match u.nft_token_id with
                | some t => ⟨some u, 200, "already_minted", some t, none, [], []⟩
                | none => mint_and_update env wallet bio u now

/-- Python s.replace('-', ''): drop every dash. Defined over the
character list so that it is kernel-reducible. -/
def pyReplaceDash (s : String) : String :=
  String.mk (s.data.filter (fun c => c != '-'))

/-- Python s.strip(): drop surrounding whitespace. Defined over the
character list so that it is kernel-reducible. -/
def pyStrip (s : String) : String :=
  String.mk (((s.data.dropWhile Char.isWhitespace).reverse.dropWhile Char.isWhitespace).reverse)

/-- Embedding of the code cleaning in mfa_service.py
(code.replace('-', '').strip()): remove the dash formatting and strip
surrounding whitespace. -/
def clean_code (code : String) : String :=
  pyStrip (pyReplaceDash code)

/-- Embedding of MFAService.verify_totp (mfa_service.py:57-70): empty
secret or token fail fast; otherwise the pyotp time-based check runs,
modelled as the oracle totpOracle (it depends on the wall clock, which
is outside the embedding). -/
def verify_totp (totpOracle : String → String → Bool) (secret token : String) : Bool :=
  if secret == "" || token == "" then false
  else totpOracle secret token

/-- Embedding of MFAService.verify_backup_code (mfa_service.py:99-114):
clean the presented code and bcrypt-check it against every stored hash. -/
def verify_backup_code (code : String) (hashed_codes : List BcryptHash) : Bool :=
  if code == "" || hashed_codes.isEmpty then false
  else hashed_codes.any (fun h => bcrypt_checkpw (clean_code code) h)

/-- Embedding of MFAService._remove_used_backup_code
(mfa_service.py:237-261): keep exactly the hashes that do not match the
cleaned used code; the filtered list is written back to the row. -/
def remove_used_backup_code (used_code : String) (hashed_codes : List BcryptHash) :
    List BcryptHash :=
  hashed_codes.filter (fun h => !(bcrypt_checkpw (clean_code used_code) h))

/-- Embedding of MFAService.verify_user_mfa (mfa_service.py:195-235).
The SELECT filters on mfa_enabled = TRUE; TOTP is tried first; only on
TOTP mismatch are the backup codes consulted, and a backup-code match
removes the used hash from the stored set before reporting success.
Returns ((success, method), updated row). -/
def verify_user_mfa (totpOracle : String → String → Bool)
    (user : Option UserRow) (token : String) : (Bool × String) × Option UserRow :=
  match user with
  | none => ((false, "mfa_not_enabled"), none)
  | some u =>
    if !u.mfa_enabled then ((false, "mfa_not_enabled"), some u)
    else
      if (match u.mfa_secret with
          | some s => verify_totp totpOracle s token
          | none => false) then
        ((true, "totp"), some u)
      else
        match u.backup_codes with
        | some codes =>
          if codes.isEmpty then ((false, "invalid_token"), some u)
          else if verify_backup_code token codes then
            ((true, "backup_code"),
             some { u with backup_codes := some (remove_used_backup_code token codes) })
          else ((false, "invalid_token"), some u)
        | none => ((false, "invalid_token"), some u)

/-- Decoded JWT payload as produced by generate_token / decode_token
(auth.py:12-29); a token that failed decoding or expired is modelled as
the absence of a payload. -/
structure TokenPayload where
  user_id : Nat
  email : String
  role : String
  mfa_verified : Bool
deriving Repr, DecidableEq

/-- Result of a route guard: either an HTTP denial or the authenticated
user handed to the route body. -/
inductive GuardResult where
  | denied (httpStatus : Nat) (tag : String) : GuardResult
  | allowed (user : UserRow) : GuardResult
deriving Repr, DecidableEq

/-- Embedding of the token_required decorator (auth.py:64-87):
bearer-token presence, decodability, and user lookup. -/
def token_required_guard (tokenProvided : Bool) (payload : Option TokenPayload)
    (user : Option UserRow) : GuardResult :=
  if !tokenProvided then .denied 401 "token_missing"
  else
    match payload with
    | none => .denied 401 "token_invalid"
    | some _ =>
      match user with
      | none => .denied 401 "user_not_found"
      | some u => .allowed u

/-- Embedding of the mfa_required decorator (auth.py:90-121): the
token_required checks, then a 403 challenge when the user has MFA
enabled but the token payload lacks the mfa_verified claim. -/
def mfa_required_guard (tokenProvided : Bool) (payload : Option TokenPayload)
    (user : Option UserRow) : GuardResult :=
  if !tokenProvided then .denied 401 "token_missing"
  else
    match payload with
    | none => .denied 401 "token_invalid"
    | some p =>
      match user with
      | none => .denied 401 "user_not_found"
      | some u =>
        if u.mfa_enabled && !p.mfa_verified then .denied 403 "mfa_required"
        else .allowed u

/-- Embedding of the admin_required decorator (auth.py:124-159): the
token_required checks, the admin role check, then the same MFA
challenge as mfa_required. -/
def admin_required_guard (tokenProvided : Bool) (payload : Option TokenPayload)
    (user : Option UserRow) : GuardResult :=
  if !tokenProvided then .denied 401 "token_missing"
  else
    match payload with
    | none => .denied 401 "token_invalid"
    | some p =>
      match user with
      | none => .denied 401 "user_not_found"
      | some u =>
        if u.role != "admin" then .denied 403 "admin_privileges_required"
        else if u.mfa_enabled && !p.mfa_verified then .denied 403 "mfa_required"
        else .allowed u

/-- The mint-nft route is registered with @token_required only
(kyc_routes.py:241-243): its guard performs no MFA check. -/
def mint_endpoint_guard (tokenProvided : Bool) (payload : Option TokenPayload)
    (user : Option UserRow) : GuardResult :=
  token_required_guard tokenProvided payload user

/-- The full mint-nft route: the decorator guard, then the endpoint
body on the authenticated user. -/
def mint_route (tokenProvided : Bool) (payload : Option TokenPayload)
    (authUser : Option UserRow) (env : ChainEnv) (body : Option MintBody)
    (db : Option UserRow) (now : Nat) : MintEndpointOutcome :=
  match mint_endpoint_guard tokenProvided payload authUser with
  | .denied s t => ⟨db, s, t, none, none, [], []⟩
  | .allowed _ => mint_identity_nft_endpoint env body db now

/-- Embedding of the disable_mfa route's guard chain
(mfa_routes.py:153-212): @token_required only, then a password check
and a fresh MFA token check from the request body — the session's
mfa_verified claim is never consulted. Returns the guard outcome before
the body-level checks. -/
def disable_mfa_guard (tokenProvided : Bool) (payload : Option TokenPayload)
    (user : Option UserRow) : GuardResult :=
  token_required_guard tokenProvided payload user

/-! ### Concrete fixtures used by counterexamples and witnesses -/

/-- A blank users-table row: no KYC progress, no MFA, no NFT. -/
def baseRow : UserRow :=
  ⟨"UNINITIATED", none, none, none, none, none, none, none, none, none,
   none, none, false, none, none, none, "user", "user@example.com"⟩

/-- A chain environment in which every external call succeeds and no
active token exists for the bio hash (the lookup returns 0). -/
def happyEnv : ChainEnv :=
  ⟨true, true, true, true, some "minter-key", some 0, some 100,
   some "0xtxhash", some 1, 10, 90, some 42⟩

/-- A 35-character bio hash, long enough for validate_bio_hash. -/
def bioA : String := "bio-hash-ABCDEFGHIJKLMNOPQRSTUVWXYZ"

/-- Fixture for C1: an identity that completed KYC and already minted
token 7. -/
def rowC1 : UserRow :=
  { baseRow with
    kyc_status := "COMPLETED",
    applicant_id := some "app1",
    bio_hash_fingerprint := some (sha256Hex bioA),
    wallet_address := some (generate_deterministic_address bioA),
    nft_token_id := some 7 }

/-- Fixture for C1: an identity whose stored status is the literal
'APPROVED' that init_kyc short-circuits on. -/
def rowC1Approved : UserRow :=
  { baseRow with kyc_status := "APPROVED", applicant_id := some "app1b" }

/-- Fixture for C2: an identity already COMPLETED by a first
'completed' delivery processed at time 1. -/
def rowC2 : UserRow :=
  { baseRow with
    kyc_status := "COMPLETED",
    applicant_id := some "app2",
    bio_hash_fingerprint := some (sha256Hex bioA),
    wallet_address := some (generate_deterministic_address bioA),
    kyc_completed_at := some 1,
    updated_at := some 1 }

/-- Fixture for C4: an identity still PENDING. -/
def rowC4 : UserRow :=
  { baseRow with kyc_status := "PENDING", applicant_id := some "app4" }

/-- Fixture for C5: a COMPLETED identity with no NFT yet. -/
def rowC5 : UserRow :=
  { baseRow with
    kyc_status := "COMPLETED",
    applicant_id := some "app5",
    bio_hash_fingerprint := some (sha256Hex bioA),
    wallet_address := some (generate_deterministic_address bioA),
    name := some "Alice",
    document_number := some "doc-5" }

/-- Fixture for C8: a COMPLETED identity whose user has MFA enabled. -/
def rowC8 : UserRow :=
  { baseRow with
    kyc_status := "COMPLETED",
    applicant_id := some "app8",
    mfa_enabled := true,
    mfa_secret := some "SECRET8",
    backup_codes := some [bcrypt_hashpw "11112222" "s1"] }

/-- Fixture for C8: a decoded session token without the mfa_verified
claim. -/
def payloadC8 : TokenPayload :=
  ⟨8, "user8@example.com", "user", false⟩

/-- Fixture for C8: the same user as rowC8 but with the admin role. -/
def rowC8Admin : UserRow :=
  { baseRow with
    mfa_enabled := true,
    mfa_secret := some "SECRET8A",
    role := "admin" }

/-- Fixture for C9: a user with MFA enabled, a TOTP secret and two
hashed backup codes. -/
def rowC9 : UserRow :=
  { baseRow with
    mfa_enabled := true,
    mfa_secret := some "SECRET9",
    backup_codes := some [bcrypt_hashpw "12345678" "s1", bcrypt_hashpw "87654321" "s2"] }

/-! ### Helper lemmas -/

/-- Ledger writes in a concatenated trace. -/
theorem countSubmits_append (xs ys : List LedgerOp) :
    countSubmits (xs ++ ys) = countSubmits xs + countSubmits ys := by
  simp [countSubmits, List.filter_append]

/-- Shape of the dict returned by mint_after_precheck on the trace it
is actually called with: success comes with token id, tx hash and
exactly one submission; failure comes with an error message and no
token fields. -/
theorem mint_after_precheck_shape (env : ChainEnv) (w : String) :
    ((mint_identity_nft.mint_after_precheck env w [LedgerOp.lookupActive]).1.success = true →
        (mint_identity_nft.mint_after_precheck env w [LedgerOp.lookupActive]).1.token_id.isSome = true
      ∧ (mint_identity_nft.mint_after_precheck env w [LedgerOp.lookupActive]).1.tx_hash.isSome = true
      ∧ countSubmits (mint_identity_nft.mint_after_precheck env w [LedgerOp.lookupActive]).2 = 1)
  ∧ ((mint_identity_nft.mint_after_precheck env w [LedgerOp.lookupActive]).1.success = false →
        (mint_identity_nft.mint_after_precheck env w [LedgerOp.lookupActive]).1.error.isSome = true
      ∧ (mint_identity_nft.mint_after_precheck env w [LedgerOp.lookupActive]).1.token_id = none
      ∧ (mint_identity_nft.mint_after_precheck env w [LedgerOp.lookupActive]).1.tx_hash = none
      ∧ countSubmits (mint_identity_nft.mint_after_precheck env w [LedgerOp.lookupActive]).2 ≤ 1) := by
  unfold mint_identity_nft.mint_after_precheck
  cases hsr : env.sendResult with
  | none =>
    simp [mintErr, countSubmits, LedgerOp.isSubmit]
  | some txh =>
    cases hrs : env.receiptStatus with
    | none =>
      simp [mintErr, countSubmits, LedgerOp.isSubmit]
    | some st =>
      by_cases hst : st = 1
      · subst hst
        cases hme : env.mintEventTokenId with
        | none =>
          simp [mintErr, countSubmits, LedgerOp.isSubmit]
        | some tid =>
          simp [mintErr, countSubmits, LedgerOp.isSubmit]
      · simp [mintErr, countSubmits, LedgerOp.isSubmit, hst]

/-- Shape of the dict returned by mint_identity_nft. -/
theorem mint_identity_nft_shape (env : ChainEnv) (w n d b a : String) :
    ((mint_identity_nft env w n d b a).1.success = true →
        (mint_identity_nft env w n d b a).1.token_id.isSome = true
      ∧ (mint_identity_nft env w n d b a).1.tx_hash.isSome = true
      ∧ countSubmits (mint_identity_nft env w n d b a).2 = 1)
  ∧ ((mint_identity_nft env w n d b a).1.success = false →
        (mint_identity_nft env w n d b a).1.error.isSome = true
      ∧ (mint_identity_nft env w n d b a).1.token_id = none
      ∧ (mint_identity_nft env w n d b a).1.tx_hash = none
      ∧ countSubmits (mint_identity_nft env w n d b a).2 ≤ 1) := by
  unfold mint_identity_nft
  by_cases hc : chain_contract_ok env = true
  · simp only [hc, Bool.not_true, Bool.false_eq_true, if_false, ite_false]
    cases hmk : env.minterKey with
    | none => simp [mintErr, countSubmits]
    | some k =>
      have h0 : countSubmits [LedgerOp.lookupActive] = 0 := by
        simp [countSubmits, LedgerOp.isSubmit]
      cases halt : env.activeTokenLookup with
      | none =>
        simpa using mint_after_precheck_shape env w
      | some t =>
        by_cases ht : t > 0
        · simp [ht, countSubmits, LedgerOp.isSubmit]
        · simpa [ht] using mint_after_precheck_shape env w
  · simp [hc, mintErr, countSubmits]

/-- The mint-and-update stage never changes the kyc status of the row. -/
theorem mint_and_update_status (env : ChainEnv) (wallet bio : String)
    (u : UserRow) (now : Nat) (u' : UserRow)
    (h : (mint_and_update env wallet bio u now).db = some u') :
    u'.kyc_status = u.kyc_status := by
  unfold mint_and_update at h
  by_cases hs : (mint_identity_nft env wallet (pyOr u.name "Usuário Blocktrust")
      (pyOr u.document_number "N/A") bio (pyOr u.applicant_id "")).1.success = true
  · rcases htid : (mint_identity_nft env wallet (pyOr u.name "Usuário Blocktrust")
        (pyOr u.document_number "N/A") bio (pyOr u.applicant_id "")).1.token_id with - | tid
    · simp [hs, htid] at h
      rw [← h]
    · rcases htxh : (mint_identity_nft env wallet (pyOr u.name "Usuário Blocktrust")
          (pyOr u.document_number "N/A") bio (pyOr u.applicant_id "")).1.tx_hash with - | txh
      · simp [hs, htid, htxh] at h
        rw [← h]
      · simp [hs, htid, htxh] at h
        rw [← h]
  · have hs' : (mint_identity_nft env wallet (pyOr u.name "Usuário Blocktrust")
        (pyOr u.document_number "N/A") bio (pyOr u.applicant_id "")).1.success = false := by
      revert hs
      cases (mint_identity_nft env wallet (pyOr u.name "Usuário Blocktrust")
        (pyOr u.document_number "N/A") bio (pyOr u.applicant_id "")).1.success <;> simp
    simp [hs'] at h
    rw [← h]

/-- Case analysis on what one webhook delivery can do to the stored
row: either it leaves the database result unchanged, or it writes a row
whose status is COMPLETED or REJECTED. -/
theorem kyc_webhook_status_cases (secret payload : String) (sig : Option String)
    (body : Option WebhookBody) (getBio : String → Option String)
    (db : Option UserRow) (now : Nat) (u' : UserRow)
    (h : (kyc_webhook secret payload sig body getBio db now).db = some u') :
    db = some u' ∨ u'.kyc_status = "COMPLETED" ∨ u'.kyc_status = "REJECTED" := by
  unfold kyc_webhook at h
  split at h
  · exact Or.inl h
  · split at h
    · exact Or.inl h
    · split at h
      · exact Or.inl h
      · split at h
        · exact Or.inl h
        · split at h
          · split at h
            · injection h with h1
              exact Or.inr (Or.inl (h1 ▸ rfl))
            · exact Or.inl h
          · split at h
            · injection h with h1
              exact Or.inr (Or.inr (h1 ▸ rfl))
            · exact Or.inl h

/-- Running a sequence of deliveries unfolds one delivery at a time. -/
theorem run_webhooks_cons (d : WebhookDelivery) (ds : List WebhookDelivery)
    (db : Option UserRow) :
    run_webhooks (d :: ds) db =
      run_webhooks ds (kyc_webhook d.secret d.payload d.signature d.body d.getBio db d.now).db := by
  rfl

/-- A valid mint request against a row that already carries a token id
returns the cached token without touching row or ledger. -/
theorem endpoint_already_minted (env : ChainEnv) (bio w : String) (u : UserRow)
    (now t : Nat) (hv : validate_bio_hash bio = true)
    (hw : pyLower w = pyLower (generate_deterministic_address bio))
    (hst : u.kyc_status = "COMPLETED") (htid : u.nft_token_id = some t) :
    mint_identity_nft_endpoint env (some ⟨some bio, some w⟩) (some u) now =
      ⟨some u, 200, "already_minted", some t, none, [], []⟩ := by
  unfold mint_identity_nft_endpoint
  simp [hv, hw, hst, htid]

/-- A valid mint request against a COMPLETED row with no token, in an
environment where the chain mint succeeds, caches the minted token id
and tx hash on the row. -/
theorem endpoint_mints (env : ChainEnv) (bio w : String) (u : UserRow) (now : Nat)
    (hv : validate_bio_hash bio = true)
    (hw : pyLower w = pyLower (generate_deterministic_address bio))
    (hst : u.kyc_status = "COMPLETED") (hnone : u.nft_token_id = none)
    (hsucc : (mint_identity_nft env w (pyOr u.name "Usuário Blocktrust")
        (pyOr u.document_number "N/A") bio (pyOr u.applicant_id "")).1.success = true) :
    ∃ tid txh,
      (mint_identity_nft env w (pyOr u.name "Usuário Blocktrust")
          (pyOr u.document_number "N/A") bio (pyOr u.applicant_id "")).1.token_id = some tid
    ∧ (mint_identity_nft env w (pyOr u.name "Usuário Blocktrust")
          (pyOr u.document_number "N/A") bio (pyOr u.applicant_id "")).1.tx_hash = some txh
    ∧ mint_identity_nft_endpoint env (some ⟨some bio, some w⟩) (some u) now =
        ⟨some { u with
            nft_token_id := some tid,
            nft_tx_hash := some txh,
            nft_minted_at := some now,
            updated_at := some now },
         200, "success", some tid, some txh, ["NFT_MINTED"],
         (mint_identity_nft env w (pyOr u.name "Usuário Blocktrust")
            (pyOr u.document_number "N/A") bio (pyOr u.applicant_id "")).2⟩ := by
  obtain ⟨hpos, -⟩ := mint_identity_nft_shape env w (pyOr u.name "Usuário Blocktrust")
    (pyOr u.document_number "N/A") bio (pyOr u.applicant_id "")
  obtain ⟨htid, htxh, -⟩ := hpos hsucc
  obtain ⟨tid, htid'⟩ := Option.isSome_iff_exists.mp htid
  obtain ⟨txh, htxh'⟩ := Option.isSome_iff_exists.mp htxh
  refine ⟨tid, txh, htid', htxh', ?_⟩
  unfold mint_identity_nft_endpoint
  simp [hv, hw, hst, hnone]
  unfold mint_and_update
  simp [hsucc, htid', htxh', hst]

/-- Counterexample for C1: for the concrete identity rowC1, which is
COMPLETED and already minted (token 7), a verified 'rejected' webhook
signal is reported processed and overwrites the stored status with
REJECTED — the transition COMPLETED→REJECTED that the claim rules out. -/
theorem C1_rejected_overwrites_completed :
    rowC1.kyc_status = "COMPLETED"
  ∧ rowC1.nft_token_id = some 7
  ∧ (kyc_webhook "sec" "pl" (some (hmacSha256Hex "sec" "pl"))
      (some ⟨some "app1", some "rejected"⟩) (fun _ => none) (some rowC1) 5).tag = "processed"
  ∧ ((kyc_webhook "sec" "pl" (some (hmacSha256Hex "sec" "pl"))
      (some ⟨some "app1", some "rejected"⟩) (fun _ => none) (some rowC1) 5).db
       |>.map UserRow.kyc_status) = some "REJECTED" := by
  decide

/-- C1 (amended): webhook-driven transitions are monotonic only in the
weaker sense that a verified signal writes only the statuses COMPLETED
or REJECTED — across any sequence of webhook deliveries an identity
whose status is not PENDING is never observed at PENDING again (in
particular a minted identity is never moved back to PENDING by replayed
signals); mint confirmation never changes the kyc status; and a repeat
init request is a no-op only on a record whose status is the literal
'APPROVED'. A verified 'rejected' signal does overwrite COMPLETED with
REJECTED (see the counterexample); a repeat init request on a COMPLETED
record resets it to PENDING, since the guard checks only 'APPROVED'. -/
theorem C1_amended_webhook_never_pending :
    (∀ (ds : List WebhookDelivery) (db : Option UserRow),
       (∀ u, db = some u → u.kyc_status ≠ "PENDING") →
       ∀ u', run_webhooks ds db = some u' → u'.kyc_status ≠ "PENDING")
  ∧ (∀ (env : ChainEnv) (body : Option MintBody) (db : Option UserRow) (now : Nat) (u' : UserRow),
       (mint_identity_nft_endpoint env body db now).db = some u' →
       ∃ u, db = some u ∧ u'.kyc_status = u.kyc_status)
  ∧ (∀ (u : UserRow) (newApp tok : Option String) (now : Nat),
       u.kyc_status = "APPROVED" →
       init_kyc true (some u) newApp tok now = ⟨some u, 200, "already_approved", []⟩) := by
  refine ⟨?_, ?_, ?_⟩
  · intro ds
    induction ds with
    | nil =>
      intro db hdb u' h
      exact hdb u' h
    | cons d ds ih =>
      intro db hdb u' h
      rw [run_webhooks_cons] at h
      refine ih _ ?_ u' h
      intro v hv
      rcases kyc_webhook_status_cases d.secret d.payload d.signature d.body d.getBio
        db d.now v hv with h1 | h2 | h3
      · exact hdb v h1
      · rw [h2]
        decide
      · rw [h3]
        decide
  · intro env body db now u' h
    unfold mint_identity_nft_endpoint at h
    split at h
    · exact ⟨u', h, rfl⟩
    · split at h
      · exact ⟨u', h, rfl⟩
      · split at h
        · exact ⟨u', h, rfl⟩
        · split at h
          · exact ⟨u', h, rfl⟩
          · split at h
            · exact ⟨u', h, rfl⟩
            · split at h
              · exact ⟨u', h, rfl⟩
              · split at h
                · refine ⟨_, rfl, ?_⟩
                  rw [Option.some.inj h]
                · split at h
                  · refine ⟨_, rfl, ?_⟩
                    rw [Option.some.inj h]
                  · refine ⟨_, rfl, ?_⟩
                    exact mint_and_update_status _ _ _ _ _ _ h
  · intro u newApp tok now hst
    unfold init_kyc
    simp [hst]

/-- Witness for C1 (amended): a replayed 'rejected' delivery moves the
minted fixture to REJECTED — never to PENDING — and init_kyc is a no-op
on the 'APPROVED' fixture. -/
theorem C1_amended_witness :
    UserRow.kyc_status { rowC1 with kyc_status := "REJECTED", updated_at := some 5 } ≠ "PENDING"
  ∧ init_kyc true (some rowC1Approved) (some "newapp") (some "tok") 9 =
      ⟨some rowC1Approved, 200, "already_approved", []⟩ := by
  constructor
  · exact C1_amended_webhook_never_pending.1
      [⟨"sec", "pl", some (hmacSha256Hex "sec" "pl"),
        some ⟨some "app1", some "rejected"⟩, fun _ => none, 5⟩]
      (some rowC1)
      (by intro u hu; cases hu; decide)
      { rowC1 with kyc_status := "REJECTED", updated_at := some 5 }
      (by decide)
  · exact C1_amended_webhook_never_pending.2.2 rowC1Approved
      (some "newapp") (some "tok") 9 (by decide)

/-- Counterexample for C2: rowC2 is already COMPLETED with
kyc_completed_at = 1; a second verified 'completed' delivery at time 2
is reported processed but rewrites kyc_completed_at (and updated_at) to
2 and re-emits the audit event — the stored record is not identical
before and after, and the delivery is not side-effect free. -/
theorem C2_second_delivery_rewrites_timestamps :
    rowC2.kyc_status = "COMPLETED"
  ∧ rowC2.kyc_completed_at = some 1
  ∧ (kyc_webhook "sec" "pl" (some (hmacSha256Hex "sec" "pl"))
      (some ⟨some "app2", some "completed"⟩) (fun _ => some bioA) (some rowC2) 2).tag = "processed"
  ∧ (kyc_webhook "sec" "pl" (some (hmacSha256Hex "sec" "pl"))
      (some ⟨some "app2", some "completed"⟩) (fun _ => some bioA) (some rowC2) 2).auditEvents
      = ["KYC_APPROVED_WEBHOOK"]
  ∧ ((kyc_webhook "sec" "pl" (some (hmacSha256Hex "sec" "pl"))
      (some ⟨some "app2", some "completed"⟩) (fun _ => some bioA) (some rowC2) 2).db
        |>.map UserRow.kyc_completed_at) = some (some 2)
  ∧ (kyc_webhook "sec" "pl" (some (hmacSha256Hex "sec" "pl"))
      (some ⟨some "app2", some "completed"⟩) (fun _ => some bioA) (some rowC2) 2).db
      ≠ some rowC2 := by
  decide

/-- C2 (amended): a verified 'completed' signal delivered to an
identity that is already COMPLETED with the matching fingerprint and
derived wallet address is accepted and reported processed, and it
leaves status, fingerprint and wallet address unchanged; but it is not
a no-op — it rewrites kyc_completed_at and updated_at to the delivery
time and re-emits the KYC_APPROVED_WEBHOOK audit event. -/
theorem C2_amended_idempotent_up_to_timestamps
    (secret payload : String) (sig : Option String) (aid bio : String)
    (getBio : String → Option String) (u : UserRow) (now : Nat)
    (hsig : verify_webhook_signature secret payload sig = true)
    (haid : u.applicant_id = some aid)
    (hbio : getBio aid = some bio)
    (hst : u.kyc_status = "COMPLETED")
    (hfp : u.bio_hash_fingerprint = some (sha256Hex bio))
    (hwa : u.wallet_address = some (generate_deterministic_address bio)) :
    kyc_webhook secret payload sig (some ⟨some aid, some "completed"⟩) getBio (some u) now =
      ⟨some { u with kyc_completed_at := some now, updated_at := some now },
       200, "processed", ["KYC_APPROVED_WEBHOOK"], 1⟩ := by
  obtain ⟨ks, aid', fp', wa', nti, nth, ksa, kca, nma, ua, nm, dn, me, ms, bc, ph, rl, em⟩ := u
  simp only at haid hst hfp hwa
  subst haid hst hfp hwa
  unfold kyc_webhook lookupByApplicant
  simp [hsig, hbio]

/-- Witness for C2 (amended): the second delivery to rowC2 at time 9
returns processed and only moves the timestamps to 9. -/
theorem C2_amended_witness :
    kyc_webhook "sec" "pl" (some (hmacSha256Hex "sec" "pl"))
      (some ⟨some "app2", some "completed"⟩) (fun _ => some bioA) (some rowC2) 9 =
      ⟨some { rowC2 with kyc_completed_at := some 9, updated_at := some 9 },
       200, "processed", ["KYC_APPROVED_WEBHOOK"], 1⟩ := by
  exact C2_amended_idempotent_up_to_timestamps "sec" "pl"
    (some (hmacSha256Hex "sec" "pl")) "app2" bioA (fun _ => some bioA) rowC2 9
    (by decide) rfl rfl rfl rfl rfl

/-- C4: a mint request is rejected with 400 before any ledger
interaction and with the row unchanged whenever the stored status is
not COMPLETED or the supplied wallet address mismatches (case
insensitively) the re-derived address; and inside mint_identity_nft,
before any ledger write, the active-token lookup runs and minting is
refused when an active token already exists for the fingerprint. -/
theorem C4_mint_preconditions :
    (∀ (env : ChainEnv) (b : MintBody) (db : Option UserRow) (now : Nat),
       (∀ u, db = some u → u.kyc_status ≠ "COMPLETED") →
         (mint_identity_nft_endpoint env (some b) db now).db = db
       ∧ (mint_identity_nft_endpoint env (some b) db now).ledgerOps = []
       ∧ (mint_identity_nft_endpoint env (some b) db now).httpStatus = 400)
  ∧ (∀ (env : ChainEnv) (bio w : String) (db : Option UserRow) (now : Nat),
       pyLower w ≠ pyLower (generate_deterministic_address bio) →
         (mint_identity_nft_endpoint env (some ⟨some bio, some w⟩) db now).db = db
       ∧ (mint_identity_nft_endpoint env (some ⟨some bio, some w⟩) db now).ledgerOps = []
       ∧ (mint_identity_nft_endpoint env (some ⟨some bio, some w⟩) db now).httpStatus = 400)
  ∧ (∀ (env : ChainEnv) (w n d b a : String) (t : Nat),
       chain_contract_ok env = true → env.minterKey.isSome = true →
       env.activeTokenLookup = some t → 0 < t →
         (mint_identity_nft env w n d b a).1.success = false
       ∧ (mint_identity_nft env w n d b a).1.existing_token_id = some t
       ∧ countSubmits (mint_identity_nft env w n d b a).2 = 0) := by
  refine ⟨?_, ?_, ?_⟩
  · intro env b db now hst
    obtain ⟨obio, ow⟩ := b
    unfold mint_identity_nft_endpoint
    cases obio with
    | none => simp
    | some bio =>
      cases ow with
      | none => simp
      | some w =>
        by_cases hv : validate_bio_hash bio = true
        · by_cases hw : pyLower w = pyLower (generate_deterministic_address bio)
          · cases db with
            | none => simp [hv, hw]
            | some u =>
              have hne : u.kyc_status ≠ "COMPLETED" := hst u rfl
              simp [hv, hw, hne]
          · simp [hv, hw]
        · simp [hv]
  · intro env bio w db now hw
    unfold mint_identity_nft_endpoint
    by_cases hv : validate_bio_hash bio = true
    · simp [hv, hw]
    · simp [hv]
  · intro env w n d b a t hc hmk halt ht
    obtain ⟨k, hk⟩ := Option.isSome_iff_exists.mp hmk
    unfold mint_identity_nft
    simp [hc, hk, halt, ht, countSubmits, LedgerOp.isSubmit]

/-- Witness for C4: the PENDING fixture is rejected with 400 and no
ledger ops; a mismatched address is rejected likewise; and with token 9
active on chain, mint_identity_nft refuses with the existing token id
and performs no write. -/
theorem C4_witness :
    ((mint_identity_nft_endpoint happyEnv (some ⟨some bioA, some (generate_deterministic_address bioA)⟩)
        (some rowC4) 3).db = some rowC4
     ∧ (mint_identity_nft_endpoint happyEnv (some ⟨some bioA, some (generate_deterministic_address bioA)⟩)
        (some rowC4) 3).ledgerOps = []
     ∧ (mint_identity_nft_endpoint happyEnv (some ⟨some bioA, some (generate_deterministic_address bioA)⟩)
        (some rowC4) 3).httpStatus = 400)
  ∧ ((mint_identity_nft_endpoint happyEnv (some ⟨some bioA, some "0xother"⟩)
        (some rowC5) 3).db = some rowC5
     ∧ (mint_identity_nft_endpoint happyEnv (some ⟨some bioA, some "0xother"⟩)
        (some rowC5) 3).ledgerOps = []
     ∧ (mint_identity_nft_endpoint happyEnv (some ⟨some bioA, some "0xother"⟩)
        (some rowC5) 3).httpStatus = 400)
  ∧ ((mint_identity_nft { happyEnv with activeTokenLookup := some 9 }
        "0xw" "n" "d" "b" "a").1.success = false
     ∧ (mint_identity_nft { happyEnv with activeTokenLookup := some 9 }
        "0xw" "n" "d" "b" "a").1.existing_token_id = some 9
     ∧ countSubmits (mint_identity_nft { happyEnv with activeTokenLookup := some 9 }
        "0xw" "n" "d" "b" "a").2 = 0) := by
  refine ⟨?_, ?_, ?_⟩
  · exact C4_mint_preconditions.1 happyEnv
      ⟨some bioA, some (generate_deterministic_address bioA)⟩ (some rowC4) 3
      (by intro u hu; cases hu; decide)
  · exact C4_mint_preconditions.2.1 happyEnv bioA "0xother" (some rowC5) 3 (by decide)
  · exact C4_mint_preconditions.2.2 { happyEnv with activeTokenLookup := some 9 }
      "0xw" "n" "d" "b" "a" 9 (by decide) (by decide) rfl (by decide)

/-- C5: minting is idempotent at the request level — a valid mint
request against a row that already carries a token id returns the
cached id without any ledger interaction, and two successive valid
mint requests for the same COMPLETED identity produce exactly one
ledger transaction, the second returning the cached token id. -/
theorem C5_mint_idempotent :
    (∀ (env : ChainEnv) (bio w : String) (u : UserRow) (now t : Nat),
       validate_bio_hash bio = true →
       pyLower w = pyLower (generate_deterministic_address bio) →
       u.kyc_status = "COMPLETED" →
       u.nft_token_id = some t →
       mint_identity_nft_endpoint env (some ⟨some bio, some w⟩) (some u) now =
         ⟨some u, 200, "already_minted", some t, none, [], []⟩)
  ∧ (∀ (env : ChainEnv) (bio w : String) (u : UserRow) (now₁ now₂ : Nat),
       validate_bio_hash bio = true →
       pyLower w = pyLower (generate_deterministic_address bio) →
       u.kyc_status = "COMPLETED" →
       u.nft_token_id = none →
       (mint_identity_nft env w (pyOr u.name "Usuário Blocktrust")
          (pyOr u.document_number "N/A") bio (pyOr u.applicant_id "")).1.success = true →
         countSubmits (mint_identity_nft_endpoint env (some ⟨some bio, some w⟩) (some u) now₁).ledgerOps
           + countSubmits (mint_identity_nft_endpoint env (some ⟨some bio, some w⟩)
               (mint_identity_nft_endpoint env (some ⟨some bio, some w⟩) (some u) now₁).db now₂).ledgerOps = 1
       ∧ (mint_identity_nft_endpoint env (some ⟨some bio, some w⟩)
            (mint_identity_nft_endpoint env (some ⟨some bio, some w⟩) (some u) now₁).db now₂).tag
           = "already_minted"
       ∧ (mint_identity_nft_endpoint env (some ⟨some bio, some w⟩)
            (mint_identity_nft_endpoint env (some ⟨some bio, some w⟩) (some u) now₁).db now₂).token_id
           = (mint_identity_nft_endpoint env (some ⟨some bio, some w⟩) (some u) now₁).token_id
       ∧ (mint_identity_nft_endpoint env (some ⟨some bio, some w⟩)
            (mint_identity_nft_endpoint env (some ⟨some bio, some w⟩) (some u) now₁).db now₂).db
           = (mint_identity_nft_endpoint env (some ⟨some bio, some w⟩) (some u) now₁).db) := by
  constructor
  · intro env bio w u now t hv hw hst htid
    exact endpoint_already_minted env bio w u now t hv hw hst htid
  · intro env bio w u now₁ now₂ hv hw hst hnone hsucc
    obtain ⟨tid, txh, htid, htxh, heq⟩ := endpoint_mints env bio w u now₁ hv hw hst hnone hsucc
    obtain ⟨hpos, -⟩ := mint_identity_nft_shape env w (pyOr u.name "Usuário Blocktrust")
      (pyOr u.document_number "N/A") bio (pyOr u.applicant_id "")
    obtain ⟨-, -, hone⟩ := hpos hsucc
    have h2 := endpoint_already_minted env bio w
      { u with
        nft_token_id := some tid,
        nft_tx_hash := some txh,
        nft_minted_at := some now₁,
        updated_at := some now₁ } now₂ tid hv hw hst rfl
    rw [heq]
    rw [h2]
    refine ⟨?_, rfl, rfl, rfl⟩
    simpa [countSubmits] using hone

/-- Witness for C5: in the all-good environment, the first request for
the COMPLETED fixture submits one transaction, and the second request
returns the cached token 42 with no further ledger ops. -/
theorem C5_witness :
    countSubmits (mint_identity_nft_endpoint happyEnv
        (some ⟨some bioA, some (generate_deterministic_address bioA)⟩) (some rowC5) 1).ledgerOps
      + countSubmits (mint_identity_nft_endpoint happyEnv
          (some ⟨some bioA, some (generate_deterministic_address bioA)⟩)
          (mint_identity_nft_endpoint happyEnv
            (some ⟨some bioA, some (generate_deterministic_address bioA)⟩) (some rowC5) 1).db 2).ledgerOps = 1
  ∧ (mint_identity_nft_endpoint happyEnv
        (some ⟨some bioA, some (generate_deterministic_address bioA)⟩)
        (mint_identity_nft_endpoint happyEnv
          (some ⟨some bioA, some (generate_deterministic_address bioA)⟩) (some rowC5) 1).db 2).tag
      = "already_minted" := by
  have h := C5_mint_idempotent.2 happyEnv bioA (generate_deterministic_address bioA)
    rowC5 1 2 (by decide) rfl rfl rfl (by decide)
  exact ⟨h.1, h.2.1⟩

/-- C3: for every webhook payload and content, a missing signature
header never verifies, and whenever the signature does not verify
against the shared secret the request is rejected immediately with 401:
the stored row is unchanged, no database read happens, and no audit
event is emitted. -/
theorem C3_invalid_signature_rejected :
    (∀ secret payload : String, verify_webhook_signature secret payload none = false)
  ∧ (∀ (secret payload : String) (sig : Option String) (body : Option WebhookBody)
       (getBio : String → Option String) (db : Option UserRow) (now : Nat),
       verify_webhook_signature secret payload sig = false →
       kyc_webhook secret payload sig body getBio db now =
         ⟨db, 401, "invalid_signature", [], 0⟩) := by
  constructor
  · intro secret payload
    rfl
  · intro secret payload sig body getBio db now h
    unfold kyc_webhook
    simp [h]

/-- Witness for C3 at a concrete forged delivery: the signature "bogus"
does not verify, and the handler leaves the COMPLETED row untouched. -/
theorem C3_witness :
    verify_webhook_signature "sec" "payload" (some "bogus") = false
  ∧ kyc_webhook "sec" "payload" (some "bogus")
      (some ⟨some "app1", some "rejected"⟩) (fun _ => none) (some rowC1) 5 =
      ⟨some rowC1, 401, "invalid_signature", [], 0⟩ := by
  refine ⟨by decide, ?_⟩
  exact C3_invalid_signature_rejected.2 "sec" "payload" (some "bogus")
    (some ⟨some "app1", some "rejected"⟩) (fun _ => none) (some rowC1) 5 (by decide)

/-- C6: key derivation is pure and deterministic — two calls of
generate_deterministic_address on the same biometric hash return the
same address, the underlying key material is likewise identical, and
the address is a function of that key material alone. -/
theorem C6_derivation_deterministic (H : String) :
    generate_deterministic_address H = generate_deterministic_address H
  ∧ derive_key_material H = derive_key_material H
  ∧ generate_deterministic_address H = account_address_from_key (derive_key_material H) := by
  exact ⟨rfl, rfl, rfl⟩

/-- Counterexample for C7: the derivation function itself performs no
length check — on the 5-character input "short", validate_bio_hash
rejects, yet generate_deterministic_address still runs the full PBKDF2
pipeline and produces an address. -/
theorem C7_short_input_still_derives :
    validate_bio_hash "short" = false
  ∧ generate_deterministic_address "short" =
      "0xaddr(pbkdf2-sha256(short:blocktrust-deterministic|blocktrust-deterministic|100000|32))" := by
  constructor
  · decide
  · rfl

/-- C7 (amended): the length gate lives in validate_bio_hash, which
accepts exactly the inputs of length at least 32, and the mint endpoint
rejects an invalid bio hash with 400 before touching the row or the
ledger; generate_deterministic_address itself performs no length check. -/
theorem C7_amended_length_gate :
    (∀ s : String, validate_bio_hash s = true ↔ 32 ≤ s.length)
  ∧ (∀ (env : ChainEnv) (bio w : String) (db : Option UserRow) (now : Nat),
       validate_bio_hash bio = false →
       mint_identity_nft_endpoint env (some ⟨some bio, some w⟩) db now =
         ⟨db, 400, "invalid_biohash", none, none, [], []⟩) := by
  constructor
  · intro s
    unfold validate_bio_hash
    by_cases he : s = ""
    · subst he
      simp
    · simp [he]
  · intro env bio w db now h
    unfold mint_identity_nft_endpoint
    simp [h]

/-- Witness for C7 (amended): the 35-character fixture passes the
length gate, a 5-character input fails it, and the mint endpoint
rejects the short input with 400 leaving the PENDING row unchanged. -/
theorem C7_amended_witness :
    (validate_bio_hash bioA = true ↔ 32 ≤ bioA.length)
  ∧ mint_identity_nft_endpoint happyEnv (some ⟨some "short", some "0xw"⟩) (some rowC4) 3 =
      ⟨some rowC4, 400, "invalid_biohash", none, none, [], []⟩ := by
  refine ⟨C7_amended_length_gate.1 bioA, ?_⟩
  exact C7_amended_length_gate.2 happyEnv "short" "0xw" (some rowC4) 3 (by decide)

/-- C10: mint_identity_nft is total over error-as-value results — every
failure returns success=False with a descriptive error (the
existing-active-token refusal additionally carries the existing token
id), and the token_id / tx_hash keys are present exactly when
success=True. -/
theorem C10_mint_total_error_dict (env : ChainEnv) (w n d b a : String) :
    ((mint_identity_nft env w n d b a).1.success = false →
       (mint_identity_nft env w n d b a).1.error.isSome = true)
  ∧ ((mint_identity_nft env w n d b a).1.token_id.isSome = true ∨
       (mint_identity_nft env w n d b a).1.tx_hash.isSome = true →
       (mint_identity_nft env w n d b a).1.success = true)
  ∧ ((mint_identity_nft env w n d b a).1.success = true →
       (mint_identity_nft env w n d b a).1.token_id.isSome = true
     ∧ (mint_identity_nft env w n d b a).1.tx_hash.isSome = true) := by
  obtain ⟨hpos, hneg⟩ := mint_identity_nft_shape env w n d b a
  refine ⟨fun h => (hneg h).1, ?_, fun h => ⟨(hpos h).1, (hpos h).2.1⟩⟩
  intro h
  by_cases hs : (mint_identity_nft env w n d b a).1.success = true
  · exact hs
  · have hfalse : (mint_identity_nft env w n d b a).1.success = false := by
      revert hs
      cases (mint_identity_nft env w n d b a).1.success <;> simp
    obtain ⟨-, htid, htx, -⟩ := hneg hfalse
    rcases h with h | h
    · rw [htid] at h
      simp at h
    · rw [htx] at h
      simp at h

/-- Witness for C10 at a concrete failing environment (send fails): the
result is success=False with an error and no token fields; the
implications of the theorem are discharged at this input. -/
theorem C10_witness :
    ((mint_identity_nft ⟨true, true, true, true, some "mk", none, some 100,
        none, none, 0, 0, none⟩ "0xw" "n" "d" "bio" "app").1.success = false →
      (mint_identity_nft ⟨true, true, true, true, some "mk", none, some 100,
        none, none, 0, 0, none⟩ "0xw" "n" "d" "bio" "app").1.error.isSome = true) := by
  exact (C10_mint_total_error_dict ⟨true, true, true, true, some "mk", none, some 100,
    none, none, 0, 0, none⟩ "0xw" "n" "d" "bio" "app").1

/-- Counterexample for C8: the mint route is guarded by token_required
only — for the concrete user rowC8, who has MFA enabled, and a session
token without the mfa_verified claim, the guard allows the request and
the mint executes end to end (one ledger transaction), instead of being
refused with an MFA challenge. -/
theorem C8_mint_route_skips_mfa_claim :
    rowC8.mfa_enabled = true
  ∧ payloadC8.mfa_verified = false
  ∧ mint_endpoint_guard true (some payloadC8) (some rowC8) = GuardResult.allowed rowC8
  ∧ (mint_route true (some payloadC8) (some rowC8) happyEnv
      (some ⟨some bioA, some (generate_deterministic_address bioA)⟩) (some rowC8) 3).tag = "success"
  ∧ countSubmits (mint_route true (some payloadC8) (some rowC8) happyEnv
      (some ⟨some bioA, some (generate_deterministic_address bioA)⟩) (some rowC8) 3).ledgerOps = 1 := by
  decide

/-- C8 (amended): the MFA-satisfied session claim is enforced only by
the mfa_required and admin_required guards — any user with MFA enabled
whose token lacks the mfa_verified claim is refused with a 403
challenge there; but the mint route and the disable-MFA route are
registered with token_required only, so they never consult the claim
(disable-MFA instead demands a fresh MFA token in the request body). -/
theorem C8_amended_mfa_gate :
    (∀ (p : TokenPayload) (u : UserRow),
       u.mfa_enabled = true → p.mfa_verified = false →
       mfa_required_guard true (some p) (some u) = .denied 403 "mfa_required")
  ∧ (∀ (p : TokenPayload) (u : UserRow),
       u.mfa_enabled = true → p.mfa_verified = false → u.role = "admin" →
       admin_required_guard true (some p) (some u) = .denied 403 "mfa_required")
  ∧ (∀ (p : TokenPayload) (u : UserRow),
       mint_endpoint_guard true (some p) (some u) = .allowed u
     ∧ disable_mfa_guard true (some p) (some u) = .allowed u) := by
  refine ⟨?_, ?_, ?_⟩
  · intro p u hm hv
    unfold mfa_required_guard
    simp [hm, hv]
  · intro p u hm hv hr
    unfold admin_required_guard
    simp [hm, hv, hr]
  · intro p u
    constructor <;> rfl

/-- Witness for C8 (amended): the MFA-enabled fixtures are refused with
the challenge by mfa_required and admin_required. -/
theorem C8_amended_witness :
    mfa_required_guard true (some payloadC8) (some rowC8) =
      GuardResult.denied 403 "mfa_required"
  ∧ admin_required_guard true (some payloadC8) (some rowC8Admin) =
      GuardResult.denied 403 "mfa_required" := by
  constructor
  · exact C8_amended_mfa_gate.1 payloadC8 rowC8 (by decide) (by decide)
  · exact C8_amended_mfa_gate.2.1 payloadC8 rowC8Admin (by decide) (by decide) (by decide)

/-- A code never verifies against the stored set it was just removed
from. -/
theorem verify_backup_code_removed (token : String) (codes : List BcryptHash) :
    verify_backup_code token (remove_used_backup_code token codes) = false := by
  unfold verify_backup_code remove_used_backup_code
  split
  · rfl
  · rw [List.any_eq_false]
    intro h hmem
    rw [List.mem_filter] at hmem
    simp only [Bool.not_eq_true'] at hmem
    simp [hmem.2]

/-- C9: a backup code is consumable exactly once — whenever
verify_user_mfa succeeds via a backup code, the matching hash is
removed from the stored set (not merely flagged), and a second
presentation of the identical code against the resulting state fails
verification. -/
theorem C9_backup_code_single_use (totpOracle : String → String → Bool)
    (u : UserRow) (token : String)
    (h : (verify_user_mfa totpOracle (some u) token).1.2 = "backup_code") :
    (∃ codes, u.backup_codes = some codes ∧
       (verify_user_mfa totpOracle (some u) token).2 =
         some { u with backup_codes := some (remove_used_backup_code token codes) })
  ∧ (verify_user_mfa totpOracle ((verify_user_mfa totpOracle (some u) token).2) token).1.1
      = false := by
  obtain ⟨ks, aid, fp, wa, nti, nth, ksa, kca, nma, ua, nm, dn, me, ms, bc, ph, rl, em⟩ := u
  cases me with
  | false =>
    exact absurd h (by simp [verify_user_mfa])
  | true =>
    cases ms with
    | none =>
      cases bc with
      | none => exact absurd h (by simp [verify_user_mfa])
      | some codes =>
        by_cases hemp : codes.isEmpty = true
        · exact absurd h (by simp [verify_user_mfa, hemp])
        · by_cases hvb : verify_backup_code token codes = true
          · constructor
            · exact ⟨codes, rfl, by simp [verify_user_mfa, hemp, hvb]⟩
            · simp [verify_user_mfa, hemp, hvb, verify_backup_code_removed]
          · exact absurd h (by simp [verify_user_mfa, hemp, hvb])
    | some sec =>
      by_cases hts : verify_totp totpOracle sec token = true
      · exact absurd h (by simp [verify_user_mfa, hts])
      · have hts' : verify_totp totpOracle sec token = false := by
          revert hts
          cases verify_totp totpOracle sec token <;> simp
        cases bc with
        | none => exact absurd h (by simp [verify_user_mfa, hts'])
        | some codes =>
          by_cases hemp : codes.isEmpty = true
          · exact absurd h (by simp [verify_user_mfa, hts', hemp])
          · by_cases hvb : verify_backup_code token codes = true
            · constructor
              · exact ⟨codes, rfl, by simp [verify_user_mfa, hts', hemp, hvb]⟩
              · simp [verify_user_mfa, hts', hemp, hvb, verify_backup_code_removed]
            · exact absurd h (by simp [verify_user_mfa, hts', hemp, hvb])

/-- Witness for C9: with TOTP failing, the fixture's backup code
1234-5678 verifies once, its hash is removed, and the identical code
fails on the second presentation. -/
theorem C9_witness :
    (∃ codes, rowC9.backup_codes = some codes ∧
       (verify_user_mfa (fun _ _ => false) (some rowC9) "1234-5678").2 =
         some { rowC9 with backup_codes := some (remove_used_backup_code "1234-5678" codes) })
  ∧ (verify_user_mfa (fun _ _ => false)
       ((verify_user_mfa (fun _ _ => false) (some rowC9) "1234-5678").2) "1234-5678").1.1
      = false := by
  exact C9_backup_code_single_use (fun _ _ => false) rowC9 "1234-5678" (by decide)

end Blocktrust
